import Mathlib

/-!
Shallow embedding of `packages/vexide-startup/sysrt/vexide_sysrt.c`, the C
stdio shim of the vexide runtime.  The file defines:

* `vexide_set_enomem`, which writes `ENOMEM` into the calling thread's
  `errno` cell;
* a static `FILE __stdio` built with picolibc's `FDEV_SETUP_STREAM` macro
  from the three extern callbacks `vexide_stdio_putc`, `vexide_stdio_getc`,
  `vexide_stdio_flush` with mode `_FDEV_SETUP_RW`;
* `FILE *const stdin = &__stdio;` together with `stdout` and `stderr`
  declared as link-time aliases of `stdin` (`[[gnu::alias("stdin")]]`).

The embedding models the program state explicitly: a per-thread `errno`
map, the contents and liveness of the static stream record, and the values
of the three standard stream pointers.  The only run-time operation of the
component, `vexide_set_enomem`, is modelled both as a state transformer and
as a one-statement program in a small fallible statement language, so that
"cannot fail / single unconditional write" claims are about the program
text rather than trivialities.
-/

/-- The three externally defined callback functions declared `extern` in the
C file.  They are defined outside this translation unit (in Rust), so the
shim only holds references to them; we model such a reference as an opaque
symbol identity. -/
inductive ExternSym where
  | vexide_stdio_putc
  | vexide_stdio_getc
  | vexide_stdio_flush
deriving DecidableEq, Repr

/-- Modelled from the spec: picolibc's internal read-capability flag bit of a
`FILE` (`__SRD`); the macro's expansion is not part of this repository. -/
def __SRD : Nat := 1

/-- Modelled from the spec: picolibc's internal write-capability flag bit of
a `FILE` (`__SWR`); the macro's expansion is not part of this repository. -/
def __SWR : Nat := 2

/-- Modelled from the spec: picolibc's `_FDEV_SETUP_READ` mode constant
(read-only setup), not part of this repository. -/
def _FDEV_SETUP_READ : Nat := __SRD

/-- Modelled from the spec: picolibc's `_FDEV_SETUP_WRITE` mode constant
(write-only setup), not part of this repository. -/
def _FDEV_SETUP_WRITE : Nat := __SWR

/-- Modelled from the spec: picolibc's `_FDEV_SETUP_RW` mode constant, the
"simultaneous read and write" setup mode, not part of this repository. -/
def _FDEV_SETUP_RW : Nat := __SRD ||| __SWR

/-- The semantic content of a picolibc `FILE` record as the spec describes
it: a write-callback reference, a read-callback reference, a flush-callback
reference, and a mode flag. -/
structure FILE where
  put : ExternSym
  get : ExternSym
  flush : ExternSym
  flags : Nat
deriving DecidableEq, Repr

/-- Modelled from the spec: picolibc's `FDEV_SETUP_STREAM(put, get, flush,
rwflag)` initializer macro (its expansion is private to picolibc and not in
this repository).  It constructs a `FILE` record registering the three
callback references directly, with the given setup-mode flag. -/
def FDEV_SETUP_STREAM (p g fl : ExternSym) (rwflag : Nat) : FILE :=
  { put := p, get := g, flush := fl, flags := rwflag }

/-- `static FILE __stdio = FDEV_SETUP_STREAM(vexide_stdio_putc,
vexide_stdio_getc, vexide_stdio_flush, _FDEV_SETUP_RW);` -/
def __stdio : FILE :=
  FDEV_SETUP_STREAM
    ExternSym.vexide_stdio_putc
    ExternSym.vexide_stdio_getc
    ExternSym.vexide_stdio_flush
    _FDEV_SETUP_RW

/-- Whether a `FILE` record's mode flag grants read capability. -/
def FILE.supportsRead (f : FILE) : Bool := f.flags &&& __SRD ≠ 0

/-- Whether a `FILE` record's mode flag grants write capability. -/
def FILE.supportsWrite (f : FILE) : Bool := f.flags &&& __SWR ≠ 0

/-- The (arbitrary but fixed) link-time address of the static object
`__stdio`.  Only its identity matters: a stream pointer equals this address
exactly when it refers to the one static stream record. -/
def addr___stdio : Nat := 1

/-- picolibc's `ENOMEM` error code, from `<errno.h>`. -/
def ENOMEM : Int := 12

/-- The program state the shim can observe or affect: the per-thread
`errno` cells (thread-local, indexed by a thread identifier), the contents
of the static `FILE __stdio` record, whether that record is still allocated,
and the values of the three standard stream pointers `stdin`, `stdout`,
`stderr`. -/
structure SysState where
  errno : Nat → Int
  stdio : FILE
  stdio_live : Bool
  stdin_ptr : Nat
  stdout_ptr : Nat
  stderr_ptr : Nat

/-- Write `code` into thread `t`'s `errno` cell, leaving every other part of
the state unchanged (`errno` is `thread_local` in the C source). -/
def setErrno (t : Nat) (code : Int) (s : SysState) : SysState :=
  { s with errno := fun u => if u = t then code else s.errno u }

/-- `void vexide_set_enomem() { errno = ENOMEM; }`, executed by thread `t`. -/
def vexide_set_enomem (t : Nat) (s : SysState) : SysState :=
  setErrno t ENOMEM s

/-- A small statement language for the bodies of the shim's functions.  It
deliberately contains conditionals and a trapping statement so that the
absence of branching and of failure in `vexide_set_enomem`'s body is a fact
about the program text, not about the language. -/
inductive Stmt where
  | setErrnoStmt (code : Int)
  | skip
  | seq (a b : Stmt)
  | iteStmt (c : SysState → Bool) (a b : Stmt)
  | trap
  deriving Inhabited

/-- Execute a statement on behalf of thread `t`.  Execution is structurally
recursive (hence always terminates) and returns `Except.error ()` exactly
when a `trap` is reached. -/
def exec (t : Nat) : Stmt → SysState → Except Unit SysState
  | Stmt.setErrnoStmt code, s => Except.ok (setErrno t code s)
  | Stmt.skip, s => Except.ok s
  | Stmt.seq a b, s => (exec t a s).bind (exec t b)
  | Stmt.iteStmt c a b, s => if c s then exec t a s else exec t b s
  | Stmt.trap, _ => Except.error ()

/-- Upper bound on the number of primitive effects a statement performs. -/
def steps : Stmt → Nat
  | Stmt.setErrnoStmt _ => 1
  | Stmt.skip => 0
  | Stmt.seq a b => steps a + steps b
  | Stmt.iteStmt _ a b => 1 + max (steps a) (steps b)
  | Stmt.trap => 1

/-- Whether a statement is free of conditional branches and of trapping
statements. -/
def branchFree : Stmt → Bool
  | Stmt.setErrnoStmt _ => true
  | Stmt.skip => true
  | Stmt.seq a b => branchFree a && branchFree b
  | Stmt.iteStmt _ _ _ => false
  | Stmt.trap => false

/-- The body of `vexide_set_enomem` as written in the C source: the single
statement `errno = ENOMEM;`. -/
def vexide_set_enomem_body : Stmt := Stmt.setErrnoStmt ENOMEM

/-- The state at program/library load time: `__stdio` is materialized as
static data, and `stdin`, `stdout`, `stderr` all carry its address —
`stdin = &__stdio` by its initializer, `stdout` and `stderr` because they
are declared `[[gnu::alias("stdin")]]` and hence are the very same object
as `stdin`.  The initial per-thread `errno` contents `e0` are arbitrary. -/
def initState (e0 : Nat → Int) : SysState :=
  { errno := e0
    stdio := __stdio
    stdio_live := true
    stdin_ptr := addr___stdio
    stdout_ptr := addr___stdio
    stderr_ptr := addr___stdio }

/-- The states reachable by running the component: the load-time state,
followed by any interleaving of `vexide_set_enomem` calls from any threads
(the component has no other run-time operation). -/
inductive Reachable (e0 : Nat → Int) : SysState → Prop where
  | init : Reachable e0 (initState e0)
  | step (t : Nat) {s : SysState} :
      Reachable e0 s → Reachable e0 (vexide_set_enomem t s)

/-- A concrete state used by witnesses: the load-time state with every
thread's `errno` cell zeroed. -/
def demoState : SysState := initState (fun _ => 0)

lemma vexide_set_enomem_stdio (t : Nat) (s : SysState) :
    (vexide_set_enomem t s).stdio = s.stdio := rfl

lemma vexide_set_enomem_stdio_live (t : Nat) (s : SysState) :
    (vexide_set_enomem t s).stdio_live = s.stdio_live := rfl

lemma vexide_set_enomem_stdin_ptr (t : Nat) (s : SysState) :
    (vexide_set_enomem t s).stdin_ptr = s.stdin_ptr := rfl

lemma vexide_set_enomem_stdout_ptr (t : Nat) (s : SysState) :
    (vexide_set_enomem t s).stdout_ptr = s.stdout_ptr := rfl

lemma vexide_set_enomem_stderr_ptr (t : Nat) (s : SysState) :
    (vexide_set_enomem t s).stderr_ptr = s.stderr_ptr := rfl

lemma reachable_frame (e0 : Nat → Int) (s : SysState) (h : Reachable e0 s) :
    s.stdio = __stdio ∧ s.stdio_live = true ∧
    s.stdin_ptr = addr___stdio ∧ s.stdout_ptr = addr___stdio ∧
    s.stderr_ptr = addr___stdio := by
  induction h with
  | init => exact ⟨rfl, rfl, rfl, rfl, rfl⟩
  | step t _ ih => exact ih

/-- C1: the three standard stream identifiers `stdin`, `stdout`, `stderr`
all resolve to the same single stream handle: in every reachable program
state, reading any pair of the three identifiers yields the same handle
address, so they are aliases of one object, not three independent
streams. -/
theorem stdio_aliases_eq (e0 : Nat → Int) (s : SysState)
    (h : Reachable e0 s) :
    s.stdin_ptr = s.stdout_ptr ∧ s.stdout_ptr = s.stderr_ptr ∧
    s.stdin_ptr = s.stderr_ptr := by
  obtain ⟨-, -, h1, h2, h3⟩ := reachable_frame e0 s h
  exact ⟨h1.trans h2.symm, h2.trans h3.symm, h1.trans h3.symm⟩

theorem stdio_aliases_eq_witness :
    Reachable (fun _ => (0 : Int)) demoState ∧
    (demoState.stdin_ptr = demoState.stdout_ptr ∧
     demoState.stdout_ptr = demoState.stderr_ptr ∧
     demoState.stdin_ptr = demoState.stderr_ptr) :=
  ⟨Reachable.init, stdio_aliases_eq (fun _ => (0 : Int)) demoState Reachable.init⟩

/-- C2: for every prior value of the calling thread's `errno` cell, after a
call to `vexide_set_enomem` that cell equals `ENOMEM`; the call overwrites
the previous value unconditionally. -/
theorem vexide_set_enomem_sets_enomem (t : Nat) (s : SysState) :
    (vexide_set_enomem t s).errno t = ENOMEM := by
  unfold vexide_set_enomem setErrno
  exact if_pos rfl

/-- C3: initialization of the stream handle registers exactly the three
externally defined callbacks directly, with no wrapping or interception:
the reference stored in each slot of `__stdio` is identical to the extern
symbol supplied to `FDEV_SETUP_STREAM`. -/
theorem stdio_callbacks_registered_directly :
    __stdio.put = ExternSym.vexide_stdio_putc ∧
    __stdio.get = ExternSym.vexide_stdio_getc ∧
    __stdio.flush = ExternSym.vexide_stdio_flush :=
  ⟨rfl, rfl, rfl⟩

/-- C4: the single stream handle is configured for simultaneous read and
write use: its mode flag is the read-write setup mode, granting both read
and write capability, and is neither the read-only nor the write-only
mode. -/
theorem stdio_mode_rw :
    __stdio.flags = _FDEV_SETUP_RW ∧
    __stdio.supportsRead = true ∧ __stdio.supportsWrite = true ∧
    __stdio.flags ≠ _FDEV_SETUP_READ ∧ __stdio.flags ≠ _FDEV_SETUP_WRITE := by
  decide

/-- C5: `vexide_set_enomem` cannot fail: for every program state, executing
its body always returns successfully (never `Except.error`), its body is a
single primitive effect (`steps = 1`), and the body contains no conditional
branch and no trapping statement. -/
theorem vexide_set_enomem_total (t : Nat) (s : SysState) :
    exec t vexide_set_enomem_body s = Except.ok (vexide_set_enomem t s) ∧
    steps vexide_set_enomem_body = 1 ∧
    branchFree vexide_set_enomem_body = true :=
  ⟨rfl, rfl, rfl⟩

/-- C6: the only effect of `vexide_set_enomem` is on the calling thread's
`errno` cell: for every program state, after the call the stream handle,
its three registered callback references, its mode flag, the liveness of
the static record, and the three alias identifiers are all unchanged, and
each thread's `errno` cell holds `ENOMEM` if it is the calling thread's
cell and its previous value otherwise. -/
theorem vexide_set_enomem_frame_effect (t : Nat) (s : SysState) :
    (vexide_set_enomem t s).stdio = s.stdio ∧
    (vexide_set_enomem t s).stdio.put = s.stdio.put ∧
    (vexide_set_enomem t s).stdio.get = s.stdio.get ∧
    (vexide_set_enomem t s).stdio.flush = s.stdio.flush ∧
    (vexide_set_enomem t s).stdio.flags = s.stdio.flags ∧
    (vexide_set_enomem t s).stdio_live = s.stdio_live ∧
    (vexide_set_enomem t s).stdin_ptr = s.stdin_ptr ∧
    (vexide_set_enomem t s).stdout_ptr = s.stdout_ptr ∧
    (vexide_set_enomem t s).stderr_ptr = s.stderr_ptr ∧
    ∀ u : Nat, (vexide_set_enomem t s).errno u =
      if u = t then ENOMEM else s.errno u :=
  ⟨rfl, rfl, rfl, rfl, rfl, rfl, rfl, rfl, rfl, fun _ => rfl⟩

/-- C7: the stream handle is created exactly once at load time as static
data and never destroyed or reallocated: in every reachable program state
the static record is still live and holds its load-time contents, and all
three stream identifiers still carry the address of that same original
handle. -/
theorem stdio_handle_stable (e0 : Nat → Int) (s : SysState)
    (h : Reachable e0 s) :
    s.stdio = __stdio ∧ s.stdio_live = true ∧
    s.stdin_ptr = addr___stdio ∧ s.stdout_ptr = addr___stdio ∧
    s.stderr_ptr = addr___stdio :=
  reachable_frame e0 s h

theorem stdio_handle_stable_witness :
    Reachable (fun _ => (0 : Int)) demoState ∧
    (demoState.stdio = __stdio ∧ demoState.stdio_live = true ∧
     demoState.stdin_ptr = addr___stdio ∧
     demoState.stdout_ptr = addr___stdio ∧
     demoState.stderr_ptr = addr___stdio) :=
  ⟨Reachable.init, stdio_handle_stable (fun _ => (0 : Int)) demoState Reachable.init⟩

/-- C8: a call to `vexide_set_enomem` on one thread does not alter the
`errno` cell observed by a different thread: the setter writes only the
calling thread's per-thread instance. -/
theorem vexide_set_enomem_thread_isolation (s : SysState) (t u : Nat)
    (h : t ≠ u) :
    (vexide_set_enomem t s).errno u = s.errno u := by
  unfold vexide_set_enomem setErrno
  exact if_neg (fun hu => h hu.symm)

theorem vexide_set_enomem_thread_isolation_witness :
    (0 : Nat) ≠ 1 ∧
    (vexide_set_enomem 0 demoState).errno 1 = demoState.errno 1 :=
  ⟨by decide, vexide_set_enomem_thread_isolation demoState 0 1 (by decide)⟩

/-- C9: `vexide_set_enomem` is idempotent: calling it twice in succession
from any program state leaves the entire state (the calling thread's
`errno` cell and everything else) equal to what a single call produces. -/
theorem vexide_set_enomem_idempotent (t : Nat) (s : SysState) :
    vexide_set_enomem t (vexide_set_enomem t s) = vexide_set_enomem t s := by
  unfold vexide_set_enomem setErrno
  congr 1
  funext u
  by_cases h : u = t <;> simp [h]

/-- C10: `vexide_set_enomem` is deterministic and state-independent: started
from any two program states (any two prior `errno` values), the calling
thread's `errno` cell after the call is the same fixed constant `ENOMEM` in
both runs. -/
theorem vexide_set_enomem_state_independent (t : Nat) (s1 s2 : SysState) :
    (vexide_set_enomem t s1).errno t = (vexide_set_enomem t s2).errno t ∧
    (vexide_set_enomem t s1).errno t = ENOMEM := by
  unfold vexide_set_enomem setErrno
  exact ⟨(if_pos rfl).trans (if_pos rfl).symm, if_pos rfl⟩
